import Mathlib

/-!
Verification of the boo-compiler core (lexer, parser, type checker, bytecode
compiler and stack VM) against its natural-language specification.

The Rust sources are shallowly embedded:
  * `f64` is modelled by `ℚ` (no claim here depends on floating-point rounding;
    the host `powf` and float formatting are abstracted into an `Env` record).
  * `HashMap` is modelled by an association list with replace-on-insert
    semantics (`alInsert` / `alGet`); iteration order of maps is never
    observed by the embedded code.
  * Rust `Vec` scope stacks (`push`/`pop` at the end, `iter().rev()` scanning
    from the top) are modelled by Lean lists whose HEAD is the TOP (innermost)
    scope, so `iter().rev()` is plain head-to-tail traversal and the `Vec`
    index `i` (from the bottom) of a stack of length `L` is list position
    `L - 1 - i`.
  * Rust panics (`unwrap` on an empty scope stack, `panic!` in the label
    resolver) are modelled as `Except.error` with a `panic:`-prefixed message.
  * The dispatch `match` in `VM::run` (src/vm/vm.rs) has NO arm for
    `Negate`, `LogicalNot` and `JumpIfTrue`; this absence is modelled by the
    dedicated `StepRes.unhandled` outcome, not by inventing a semantics.
  * error strings follow the source format strings, with `{:?}` payloads of
    runtime values elided and apostrophes dropped.
-/

namespace Boo

/-- `Type` from src/lexer/lexer.rs (named `Ty` because `Type` is taken in Lean). -/
inductive Ty
  | num
  | str
  | bool
  | void
deriving DecidableEq, Repr, Fintype

/-- `Operator` from src/lexer/lexer.rs, extended with the variants that the
later-stage sources (typechecker.rs, bytecode.rs) match on
(`LogicalAnd`, `LogicalOr`, `Concat`, `UnaryMinus`, `LogicalNot`). -/
inductive Operator
  | plus
  | minus
  | multiply
  | divide
  | power
  | modulo
  | assignEquals
  | addAssign
  | subAssign
  | mulAssign
  | divAssign
  | powAssign
  | modAssign
  | equals
  | notEquals
  | greaterThan
  | lessThan
  | greaterThanOrEqual
  | lessThanOrEqual
  | logicalAnd
  | logicalOr
  | concat
  | unaryMinus
  | logicalNot
deriving DecidableEq, Repr, Fintype

/-- `Keyword` from src/lexer/lexer.rs. -/
inductive Keyword
  | kwFun
  | kwReturn
  | kwIf
  | kwElse
deriving DecidableEq, Repr

/-- `Token` from src/lexer/lexer.rs. -/
inductive Token
  | identifier (s : String)
  | number (q : ℚ)
  | string (s : String)
  | boolean (b : Bool)
  | operator (op : Operator)
  | keyword (k : Keyword)
  | type (t : Ty)
  | period
  | leftParen
  | rightParen
  | leftBrace
  | rightBrace
  | arrow
  | comma
deriving DecidableEq, Repr

/-- `Parameter` from src/parser/parser.rs. -/
structure Parameter where
  name : String
  paramType : Ty
  optional : Bool
deriving DecidableEq, Repr

/-- `ASTNode`: the union of the variants appearing in src/parser/parser.rs and
the ones matched by src/bytecode/bytecode.rs and src/analyzer/typechecker.rs
(`UnaryOperation`, `MethodCall`). -/
inductive ASTNode
  | program (stmts : List ASTNode)
  | statement (e : ASTNode)
  | returnStatement (e : ASTNode)
  | binaryOperation (left : ASTNode) (op : Operator) (right : ASTNode)
  | unaryOperation (op : Operator) (operand : ASTNode)
  | functionDeclaration (name : String) (parameters : List Parameter)
      (returnType : Option Ty) (body : List ASTNode)
  | functionCall (name : String) (arguments : List ASTNode)
  | methodCall (object : ASTNode) (method : String) (arguments : List ASTNode)
  | ifStatement (condition : ASTNode) (thenBody : List ASTNode)
      (elseBody : Option (List ASTNode))
  | variableDeclaration (varType : Ty) (name : String) (value : ASTNode)
  | identifier (name : String)
  | numberLiteral (q : ℚ)
  | stringLiteral (s : String)
  | booleanLiteral (b : Bool)

/-- `Instruction` from src/bytecode/bytecode.rs. -/
inductive Instruction
  | pushNumber (q : ℚ)
  | pushString (s : String)
  | pushBoolean (b : Bool)
  | pushVoid
  | pop
  | negate
  | logicalNot
  | loadVariable (name : String)
  | storeVariable (name : String)
  | declareVariable (name : String) (ty : Ty)
  | add
  | subtract
  | multiply
  | divide
  | power
  | modulo
  | concat
  | equals
  | notEquals
  | greaterThan
  | lessThan
  | greaterThanOrEqual
  | lessThanOrEqual
  | jump (addr : Nat)
  | jumpIfFalse (addr : Nat)
  | jumpIfTrue (addr : Nat)
  | declareFunction (name : String) (parameters : List Parameter) (returnType : Option Ty)
  | call (name : String) (argCount : Nat)
  | callMethod (name : String) (argCount : Nat)
  | ret
  | enterScope
  | exitScope
  | endProgram
deriving DecidableEq, Repr

/-- `Value` from src/vm/vm.rs. -/
inductive Value
  | number (q : ℚ)
  | string (s : String)
  | boolean (b : Bool)
  | void
deriving DecidableEq, Repr

/-! ### Association lists modelling `HashMap` -/

/-- `HashMap::insert`: replace the binding if the key is present, else add it. -/
def alInsert {β : Type} : List (String × β) → String → β → List (String × β)
  | [], k, v => [(k, v)]
  | (k0, v0) :: rest, k, v =>
      if k0 = k then (k, v) :: rest else (k0, v0) :: alInsert rest k v

/-- `HashMap::get`. -/
def alGet {β : Type} : List (String × β) → String → Option β
  | [], _ => none
  | (k0, v0) :: rest, k => if k0 = k then some v0 else alGet rest k

/-- `HashMap::contains_key`. -/
def alContains {β : Type} (m : List (String × β)) (k : String) : Bool :=
  (alGet m k).isSome

/-- A runtime scope: `HashMap<String, Value>`. -/
abbrev Scope := List (String × Value)

/-! ### VM state (src/vm/vm.rs) -/

/-- `Function` from src/vm/vm.rs. -/
structure Func where
  parameters : List Parameter
  address : Nat
deriving DecidableEq, Repr

/-- `CallFrame` from src/vm/vm.rs. -/
structure CallFrame where
  returnAddress : Nat
  -- `variables` in the source; renamed because `variables` is reserved in Lean
  vars : Scope
  scopeIndex : Nat
deriving DecidableEq, Repr

/-- The mutable part of `VM` (src/vm/vm.rs): program counter, operand stack,
scope stack (list head = `Vec` top = innermost scope), call stack (head = top)
and the user function table.  The instruction vector and the host registries
are passed separately. -/
structure VMState where
  pc : Nat
  stack : List Value
  scopes : List Scope
  callStack : List CallFrame
  functions : List (String × Func)
deriving DecidableEq, Repr

/-- A host callable `(vm, args) -> Result<Value, String>`; the `&mut VM`
argument is dropped (the core stdlib never re-enters the interpreter). -/
abbrev NativeFn := List Value → Except String Value

/-- The host-supplied registries of `VM` plus the two float operations the VM
delegates to the host (`f64::powf` and `f64` `Display`), abstracted because
`f64` is modelled by `ℚ`. -/
structure Env where
  natives : String → Option NativeFn
  stringMethods : String → Option NativeFn
  numberMethods : String → Option NativeFn
  booleanMethods : String → Option NativeFn
  powf : ℚ → ℚ → ℚ
  numToString : ℚ → String

/-- An `Env` with empty registries, for concrete runs that use no stdlib. -/
def defaultEnv : Env where
  natives := fun _ => none
  stringMethods := fun _ => none
  numberMethods := fun _ => none
  booleanMethods := fun _ => none
  powf := fun _ _ => 0
  numToString := fun _ => ""

/-- `VM::get_variable` (src/vm/vm.rs lines 107-124): fast path on the topmost
scope, then a scan of the whole scope stack from top to bottom. -/
def getVariable (scopes : List Scope) (name : String) : Option Value :=
  let fast : Option Value :=
    match scopes.head? with
    | some sc => alGet sc name
    | none => none
  match fast with
  | some v => some v
  | none => scopes.findSome? (fun sc => alGet sc name)

/-- The scan inside the `StoreVariable` arm (src/vm/vm.rs lines 156-174):
update the binding in the topmost scope that contains `name`; `none` when no
scope binds it. -/
def updateVariable : List Scope → String → Value → Option (List Scope)
  | [], _, _ => none
  | sc :: rest, name, v =>
      if alContains sc name then some (alInsert sc name v :: rest)
      else (updateVariable rest name v).map (sc :: ·)

/-- `b.to_string()` for a Rust `bool`. -/
def boolToString (b : Bool) : String := if b then "true" else "false"

/-- Rust `f64` truncated remainder `a % b`, transported to `ℚ`. -/
def qRem (a b : ℚ) : ℚ :=
  a - b * ((Rat.floor (a / b) : ℚ))

/-- `args.insert(0, pop)` repeated `n` times (both the native-call and the
user-call argument collection): the last-popped value ends at position 0, so
the result lists the arguments in call order.  `none` models a `pop` on an
empty stack (stack underflow). -/
def popArgs (stack : List Value) (n : Nat) : Option (List Value × List Value) :=
  if stack.length < n then none
  else some ((stack.take n).reverse, stack.drop n)

/-- The parameter-binding loop of the `Call` arm (src/vm/vm.rs lines 452-461):
parameter `i` is bound to argument `i` when `i < args.len()`, else to `Void`. -/
def bindParams (params : List Parameter) (args : List Value) : Scope :=
  (List.range params.length).foldl
    (fun sc i =>
      match params.get? i with
      | some p => alInsert sc p.name (args.getD i Value.void)
      | none => sc)
    []

/-- Result of one dispatch iteration of `VM::run`. -/
inductive StepRes
  | next (s : VMState)
  | done (v : Option Value)
  | fail (e : String)
  | unhandled (i : Instruction)
deriving DecidableEq, Repr

/-- One iteration of the dispatch loop of `VM::run` (src/vm/vm.rs lines
126-570).  `done none` models falling off the end of the instruction vector
(`Ok(None)`); `unhandled i` models fetching an instruction for which the
source `match` has no arm (`Negate`, `LogicalNot`, `JumpIfTrue`). -/
def step (env : Env) (prog : List Instruction) (s : VMState) : StepRes :=
  match prog.get? s.pc with
  | none => .done none
  | some ins =>
    match ins with
    | .pushNumber q => .next { s with stack := .number q :: s.stack, pc := s.pc + 1 }
    | .pushString str => .next { s with stack := .string str :: s.stack, pc := s.pc + 1 }
    | .pushBoolean b => .next { s with stack := .boolean b :: s.stack, pc := s.pc + 1 }
    | .pushVoid => .next { s with stack := .void :: s.stack, pc := s.pc + 1 }
    | .pop =>
        match s.stack with
        | [] => .fail "Stack underflow"
        | _ :: rest => .next { s with stack := rest, pc := s.pc + 1 }
    | .negate => .unhandled ins
    | .logicalNot => .unhandled ins
    | .loadVariable name =>
        match getVariable s.scopes name with
        | some v => .next { s with stack := v :: s.stack, pc := s.pc + 1 }
        | none => .fail ("Variable " ++ name ++ " not found")
    | .storeVariable name =>
        match s.stack with
        | [] => .fail "Stack underflow"
        | v :: rest =>
            match updateVariable s.scopes name v with
            | some scopes2 =>
                .next { s with stack := v :: rest, scopes := scopes2, pc := s.pc + 1 }
            | none => .fail ("Assignment to undeclared variable " ++ name)
    | .declareVariable name _ =>
        match s.scopes with
        | [] => .fail "panic: current_scope on empty scope stack"
        | sc :: rest =>
            if alContains sc name then
              .fail ("Variable " ++ name ++ " already declared in this scope")
            else
              .next { s with scopes := alInsert sc name .void :: rest, pc := s.pc + 1 }
    | .add =>
        match s.stack with
        | right :: left :: rest =>
            match left, right with
            | .number a, .number b =>
                .next { s with stack := .number (a + b) :: rest, pc := s.pc + 1 }
            | _, _ => .fail "Cannot add values"
        | _ => .fail "Stack underflow"
    | .subtract =>
        match s.stack with
        | right :: left :: rest =>
            match left, right with
            | .number a, .number b =>
                .next { s with stack := .number (a - b) :: rest, pc := s.pc + 1 }
            | _, _ => .fail "Type mismatch in subtraction"
        | _ => .fail "Stack underflow"
    | .multiply =>
        match s.stack with
        | right :: left :: rest =>
            match left, right with
            | .number a, .number b =>
                .next { s with stack := .number (a * b) :: rest, pc := s.pc + 1 }
            | _, _ => .fail "Type mismatch in multiplication"
        | _ => .fail "Stack underflow"
    | .divide =>
        match s.stack with
        | right :: left :: rest =>
            match left, right with
            | .number a, .number b =>
                if b = 0 then .fail "Cannot divide by zero"
                else .next { s with stack := .number (a / b) :: rest, pc := s.pc + 1 }
            | _, _ => .fail "Type mismatch in division"
        | _ => .fail "Stack underflow"
    | .power =>
        -- source (vm.rs lines 233-239): `if let (Number, Number)` with NO else:
        -- on any other operand kinds both values are popped and execution
        -- silently falls through to `pc += 1`.
        match s.stack with
        | right :: left :: rest =>
            match left, right with
            | .number a, .number b =>
                .next { s with stack := .number (env.powf a b) :: rest, pc := s.pc + 1 }
            | _, _ => .next { s with stack := rest, pc := s.pc + 1 }
        | _ => .fail "Stack underflow"
    | .modulo =>
        match s.stack with
        | right :: left :: rest =>
            match left, right with
            | .number a, .number b =>
                if b = 0 then .fail "Cannot calculate modulo by zero"
                else .next { s with stack := .number (qRem a b) :: rest, pc := s.pc + 1 }
            | _, _ => .next { s with stack := rest, pc := s.pc + 1 }
        | _ => .fail "Stack underflow"
    | .concat =>
        match s.stack with
        | right :: left :: rest =>
            match left, right with
            | .void, _ => .fail "Cannot concatenate void"
            | _, .void => .fail "Cannot concatenate void"
            | .string a, .string b =>
                .next { s with stack := .string (a ++ b) :: rest, pc := s.pc + 1 }
            | .string a, .boolean b =>
                .next { s with stack := .string (a ++ boolToString b) :: rest, pc := s.pc + 1 }
            | .string a, .number n =>
                .next { s with stack := .string (a ++ env.numToString n) :: rest, pc := s.pc + 1 }
            | .boolean a, .string b =>
                .next { s with stack := .string (boolToString a ++ b) :: rest, pc := s.pc + 1 }
            | .number a, .string b =>
                .next { s with stack := .string (env.numToString a ++ b) :: rest, pc := s.pc + 1 }
            | _, _ => .fail "Type mismatch in concatenation"
        | _ => .fail "Stack underflow"
    | .equals =>
        match s.stack with
        | right :: left :: rest =>
            match left, right with
            | .number a, .number b =>
                .next { s with stack := .boolean (a = b) :: rest, pc := s.pc + 1 }
            | .string a, .string b =>
                .next { s with stack := .boolean (a = b) :: rest, pc := s.pc + 1 }
            | .boolean a, .boolean b =>
                .next { s with stack := .boolean (a = b) :: rest, pc := s.pc + 1 }
            | _, _ => .fail "Type mismatch in equality comparison"
        | _ => .fail "Stack underflow"
    | .notEquals =>
        match s.stack with
        | right :: left :: rest =>
            match left, right with
            | .number a, .number b =>
                .next { s with stack := .boolean (a ≠ b) :: rest, pc := s.pc + 1 }
            | .string a, .string b =>
                .next { s with stack := .boolean (a ≠ b) :: rest, pc := s.pc + 1 }
            | .boolean a, .boolean b =>
                .next { s with stack := .boolean (a ≠ b) :: rest, pc := s.pc + 1 }
            | _, _ => .fail "Type mismatch in equality comparison"
        | _ => .fail "Stack underflow"
    | .greaterThan =>
        -- source (vm.rs lines 335-342): `if let (Number, Number)` with NO
        -- else: non-number operands are popped and execution silently
        -- continues, pushing nothing.
        match s.stack with
        | right :: left :: rest =>
            match left, right with
            | .number a, .number b =>
                .next { s with stack := .boolean (b < a) :: rest, pc := s.pc + 1 }
            | _, _ => .next { s with stack := rest, pc := s.pc + 1 }
        | _ => .fail "Stack underflow"
    | .lessThan =>
        match s.stack with
        | right :: left :: rest =>
            match left, right with
            | .number a, .number b =>
                .next { s with stack := .boolean (a < b) :: rest, pc := s.pc + 1 }
            | _, _ => .next { s with stack := rest, pc := s.pc + 1 }
        | _ => .fail "Stack underflow"
    | .greaterThanOrEqual =>
        match s.stack with
        | right :: left :: rest =>
            match left, right with
            | .number a, .number b =>
                .next { s with stack := .boolean (b ≤ a) :: rest, pc := s.pc + 1 }
            | _, _ => .next { s with stack := rest, pc := s.pc + 1 }
        | _ => .fail "Stack underflow"
    | .lessThanOrEqual =>
        match s.stack with
        | right :: left :: rest =>
            match left, right with
            | .number a, .number b =>
                .next { s with stack := .boolean (a ≤ b) :: rest, pc := s.pc + 1 }
            | _, _ => .next { s with stack := rest, pc := s.pc + 1 }
        | _ => .fail "Stack underflow"
    | .jump addr => .next { s with pc := addr }
    | .jumpIfFalse addr =>
        match s.stack with
        | [] => .fail "Stack underflow"
        | v :: rest =>
            match v with
            | .boolean c =>
                if c then .next { s with stack := rest, pc := s.pc + 1 }
                else .next { s with stack := rest, pc := addr }
            | _ => .fail "Non bool value in condition"
    | .jumpIfTrue _ => .unhandled ins
    | .declareFunction name params _ =>
        let ba0 := s.pc + 1
        let ba :=
          match prog.get? ba0 with
          | some (.jump _) => ba0 + 1
          | _ => ba0
        .next { s with functions := alInsert s.functions name { parameters := params, address := ba }, pc := s.pc + 1 }
    | .call name argCount =>
        match env.natives name with
        | some f =>
            match popArgs s.stack argCount with
            | none => .fail "Stack underflow"
            | some (args, rest) =>
                match f args with
                | .ok v => .next { s with stack := v :: rest, pc := s.pc + 1 }
                | .error e => .fail e
        | none =>
            match alGet s.functions name with
            | none => .fail ("Usage of undeclared function " ++ name)
            | some fn =>
                -- source (vm.rs line 425): `required_args` counts the
                -- parameters whose `optional` flag is TRUE.
                let requiredArgs := (fn.parameters.filter (·.optional)).length
                if argCount < requiredArgs ∨ fn.parameters.length < argCount then
                  .fail ("Function " ++ name ++ " requires " ++ toString requiredArgs ++
                         " arguments, but " ++ toString argCount ++ " were provided")
                else
                  -- push a fresh scope; its Vec index is the pre-push length
                  let scopeIndex := s.scopes.length
                  match popArgs s.stack argCount with
                  | none => .fail "Stack underflow"
                  | some (args, rest) =>
                      let bound := bindParams fn.parameters args
                      let cf : CallFrame :=
                        { returnAddress := s.pc + 1, vars := bound, scopeIndex := scopeIndex }
                      .next { s with stack := rest, scopes := bound :: s.scopes, callStack := cf :: s.callStack, pc := fn.address }
    | .callMethod name argCount =>
        match popArgs s.stack argCount with
        | none => .fail "Stack underflow"
        | some (args, rest1) =>
            match rest1 with
            | [] => .fail "Stack underflow"
            | obj :: rest =>
                let fullArgs := obj :: args
                let registry :=
                  match obj with
                  | .string _ => some env.stringMethods
                  | .number _ => some env.numberMethods
                  | .boolean _ => some env.booleanMethods
                  | .void => none
                match registry with
                | none => .fail ("Cannot call method " ++ name ++ " on value")
                | some reg =>
                    match reg name with
                    | some f =>
                        match f fullArgs with
                        | .ok v => .next { s with stack := v :: rest, pc := s.pc + 1 }
                        | .error e => .fail e
                    | none =>
                        -- source (vm.rs lines 485-516): when the receiver kind
                        -- has no registration for `name` the arm body ends and
                        -- the loop silently advances `pc`.
                        .next { s with stack := rest, pc := s.pc + 1 }
    | .ret =>
        let rv := match s.stack with
          | v :: _ => v
          | [] => .void
        let stack1 := match s.stack with
          | _ :: rest => rest
          | [] => []
        match s.callStack with
        | cf :: cs =>
            .next { s with stack := rv :: stack1, scopes := s.scopes.drop (s.scopes.length - cf.scopeIndex), callStack := cs, pc := cf.returnAddress }
        | [] => .done (some rv)
    | .enterScope => .next { s with scopes := [] :: s.scopes, pc := s.pc + 1 }
    | .exitScope =>
        let t := s.scopes.drop 1
        .next { s with scopes := if t.isEmpty then [[]] else t, pc := s.pc + 1 }
    | .endProgram =>
        match s.stack with
        | v :: _ => .done (some v)
        | [] => .done none

/-- Result of a bounded run of the dispatch loop. -/
inductive RunRes
  | finished (v : Option Value)
  | failed (e : String)
  | stuck (i : Instruction)
  | fuelOut
deriving DecidableEq, Repr

/-- Iterate `step` with fuel. -/
def run (env : Env) (prog : List Instruction) : Nat → VMState → RunRes
  | 0, _ => .fuelOut
  | fuel + 1, s =>
      match step env prog s with
      | .next s2 => run env prog fuel s2
      | .done v => .finished v
      | .fail e => .failed e
      | .unhandled i => .stuck i

/-- Execute exactly `n` successful dispatch iterations. -/
def execN (env : Env) (prog : List Instruction) : Nat → VMState → Option VMState
  | 0, s => some s
  | n + 1, s =>
      match step env prog s with
      | .next s2 => execN env prog n s2
      | _ => none

/-- The state of `VM::new`: `pc = 0`, empty operand stack, a single global
scope, empty call stack, no user functions. -/
def initState : VMState where
  pc := 0
  stack := []
  scopes := [[]]
  callStack := []
  functions := []

/-! ### Bytecode compiler (src/bytecode/bytecode.rs) -/

/-- The mutable lowering state of `Bytecode` (src/bytecode/bytecode.rs):
the growing instruction vector, the pending `(index, label)` fixups, the
resolved labels and the label counter. -/
structure CompilerState where
  instructions : List Instruction
  jumpPoints : List (Nat × String)
  labels : List (String × Nat)
  labelCounter : Nat

/-- `Bytecode::new` (instruction state only). -/
def initCompiler : CompilerState :=
  { instructions := [], jumpPoints := [], labels := [], labelCounter := 0 }

/-- `Bytecode::generate_label`. -/
def generateLabel (st : CompilerState) (pre : String) : String × CompilerState :=
  (pre ++ "_" ++ toString st.labelCounter, { st with labelCounter := st.labelCounter + 1 })

/-- `Bytecode::create_label`: bind the label to the current instruction count. -/
def createLabel (st : CompilerState) (name : String) : CompilerState :=
  { st with labels := alInsert st.labels name st.instructions.length }

/-- `self.instructions.push(i)`. -/
def emit (st : CompilerState) (i : Instruction) : CompilerState :=
  { st with instructions := st.instructions ++ [i] }

/-- `Bytecode::add_jump`: emit the placeholder jump and record the fixup. -/
def addJump (st : CompilerState) (i : Instruction) (label : String) : CompilerState :=
  { st with instructions := st.instructions ++ [i],
            jumpPoints := st.jumpPoints ++ [(st.instructions.length, label)] }

mutual

/-- `Bytecode::is_return_statement` (src/bytecode/bytecode.rs lines 138-161),
fuelled so that it reduces inside the kernel (the fuel only bounds the
nesting depth of the node; every use below supplies more than enough). -/
def isReturnStatement : Nat → ASTNode → Bool
  | 0, _ => false
  | n + 1, node =>
      match node with
      | .returnStatement _ => true
      | .ifStatement _ thenBody elseBody =>
          let thenReturns := lastReturns n thenBody
          match elseBody with
          | some eb => thenReturns && lastReturns n eb
          | none => thenReturns
      | _ => false

/-- `!body.is_empty() && is_return_statement(&body[body.len() - 1])`. -/
def lastReturns : Nat → List ASTNode → Bool
  | 0, _ => false
  | _ + 1, [] => false
  | n + 1, [x] => isReturnStatement n x
  | n + 1, _ :: rest => lastReturns n rest

end

mutual

/-- `Bytecode::compile_node` (src/bytecode/bytecode.rs lines 163-517),
fuelled (the fuel only bounds the recursion depth; it is threaded unchanged
through every theorem below, which quantifies over it or supplies a concrete
amount). -/
def compileNode : Nat → CompilerState → ASTNode → Except String CompilerState
  | 0, _, _ => .error "panic: compiler fuel exhausted"
  | n + 1, st, node =>
      match node with
      | .statement e =>
          match compileNode n st e with
          | .error msg => .error msg
          | .ok st1 => .ok (emit st1 .pop)
      | .unaryOperation op operand =>
          match compileNode n st operand with
          | .error msg => .error msg
          | .ok st1 =>
              match op with
              | .unaryMinus => .ok (emit st1 .negate)
              | .logicalNot => .ok (emit st1 .logicalNot)
              | _ => .error "Unsupported unary operator"
      | .returnStatement e =>
          match compileNode n st e with
          | .error msg => .error msg
          | .ok st1 => .ok (emit st1 .ret)
      | .binaryOperation left op right =>
          match op with
          | .assignEquals =>
              match left with
              | .identifier name =>
                  match compileNode n st right with
                  | .error msg => .error msg
                  | .ok st1 => .ok (emit (emit st1 (.storeVariable name)) (.loadVariable name))
              | _ => .error "Left side of assignment must be an identifier"
          | .addAssign => compileCompoundAssign n st left right .add
          | .subAssign => compileCompoundAssign n st left right .subtract
          | .mulAssign => compileCompoundAssign n st left right .multiply
          | .divAssign => compileCompoundAssign n st left right .divide
          | .powAssign => compileCompoundAssign n st left right .power
          | .modAssign => compileCompoundAssign n st left right .modulo
          | .logicalAnd =>
              match compileNode n st left with
              | .error msg => .error msg
              | .ok st1 =>
                  let (skipLabel, st2) := generateLabel st1 "and_skip"
                  let (endLabel, st3) := generateLabel st2 "and_end"
                  let st4 := addJump st3 (.jumpIfFalse 0) skipLabel
                  match compileNode n st4 right with
                  | .error msg => .error msg
                  | .ok st5 =>
                      let st6 := addJump st5 (.jump 0) endLabel
                      let st7 := emit (createLabel st6 skipLabel) (.pushBoolean false)
                      .ok (createLabel st7 endLabel)
          | .logicalOr =>
              match compileNode n st left with
              | .error msg => .error msg
              | .ok st1 =>
                  let (skipLabel, st2) := generateLabel st1 "or_skip"
                  let (endLabel, st3) := generateLabel st2 "or_end"
                  let st4 := addJump st3 (.jumpIfTrue 0) skipLabel
                  match compileNode n st4 right with
                  | .error msg => .error msg
                  | .ok st5 =>
                      let st6 := addJump st5 (.jump 0) endLabel
                      let st7 := emit (createLabel st6 skipLabel) (.pushBoolean true)
                      .ok (createLabel st7 endLabel)
          | _ =>
              match compileNode n st left with
              | .error msg => .error msg
              | .ok st1 =>
                  match compileNode n st1 right with
                  | .error msg => .error msg
                  | .ok st2 =>
                      match op with
                      | .plus => .ok (emit st2 .add)
                      | .minus => .ok (emit st2 .subtract)
                      | .multiply => .ok (emit st2 .multiply)
                      | .divide => .ok (emit st2 .divide)
                      | .power => .ok (emit st2 .power)
                      | .modulo => .ok (emit st2 .modulo)
                      | .equals => .ok (emit st2 .equals)
                      | .notEquals => .ok (emit st2 .notEquals)
                      | .greaterThan => .ok (emit st2 .greaterThan)
                      | .lessThan => .ok (emit st2 .lessThan)
                      | .greaterThanOrEqual => .ok (emit st2 .greaterThanOrEqual)
                      | .lessThanOrEqual => .ok (emit st2 .lessThanOrEqual)
                      | .concat => .ok (emit st2 .concat)
                      | _ => .error "panic: Unexpected binary operator"
      | .functionDeclaration name params retTy body =>
          let functionLabel := "function_" ++ name
          let endLabel := functionLabel ++ "_end"
          let st1 := emit st (.declareFunction name params retTy)
          let st2 := addJump st1 (.jump 0) endLabel
          let st3 := emit (createLabel st2 functionLabel) .enterScope
          let hasExplicitReturn := lastReturns n body
          match compileNodes n st3 body with
          | .error msg => .error msg
          | .ok st4 =>
              let st5 := if hasExplicitReturn then st4 else emit (emit st4 .pushVoid) .ret
              .ok (createLabel (emit st5 .exitScope) endLabel)
      | .functionCall name arguments =>
          match compileNodes n st arguments with
          | .error msg => .error msg
          | .ok st1 => .ok (emit st1 (.call name arguments.length))
      | .methodCall object method arguments =>
          match compileNode n st object with
          | .error msg => .error msg
          | .ok st1 =>
              match compileNodes n st1 arguments with
              | .error msg => .error msg
              | .ok st2 => .ok (emit st2 (.callMethod method arguments.length))
      | .ifStatement condition thenBody elseBody =>
          let (elseLabel, st1) := generateLabel st "else"
          let (endLabel, st2) := generateLabel st1 "endif"
          match compileNode n st2 condition with
          | .error msg => .error msg
          | .ok st3 =>
              let st4 := emit (addJump st3 (.jumpIfFalse 0) elseLabel) .enterScope
              match compileNodes n st4 thenBody with
              | .error msg => .error msg
              | .ok st5 =>
                  let st6 := createLabel (addJump (emit st5 .exitScope) (.jump 0) endLabel) elseLabel
                  match elseBody with
                  | some eb =>
                      match compileNodes n (emit st6 .enterScope) eb with
                      | .error msg => .error msg
                      | .ok st7 => .ok (createLabel (emit st7 .exitScope) endLabel)
                  | none => .ok (createLabel st6 endLabel)
      | .variableDeclaration varType name value =>
          let st1 := emit st (.declareVariable name varType)
          match compileNode n st1 value with
          | .error msg => .error msg
          | .ok st2 => .ok (emit st2 (.storeVariable name))
      | .identifier name => .ok (emit st (.loadVariable name))
      | .numberLiteral q => .ok (emit st (.pushNumber q))
      | .stringLiteral str => .ok (emit st (.pushString str))
      | .booleanLiteral b => .ok (emit st (.pushBoolean b))
      | .program _ => .error "panic: Unexpected node type, expected statement"

/-- The compound-assignment lowering shared by the `AddAssign` .. `ModAssign`
arms (src/bytecode/bytecode.rs lines 192-299): `LoadVariable`, right operand,
the arithmetic opcode, `StoreVariable`, `LoadVariable`; non-identifier left
side is a compile error. -/
def compileCompoundAssign (n : Nat) (st : CompilerState) (left right : ASTNode)
    (opcode : Instruction) : Except String CompilerState :=
  match left with
  | .identifier name =>
      match compileNode n (emit st (.loadVariable name)) right with
      | .error msg => .error msg
      | .ok st1 =>
          .ok (emit (emit (emit st1 opcode) (.storeVariable name)) (.loadVariable name))
  | _ => .error "Left side of assignment must be an identifier"

/-- The `for stmt in body { compile_node(stmt)? }` loops. -/
def compileNodes : Nat → CompilerState → List ASTNode → Except String CompilerState
  | 0, _, _ => .error "panic: compiler fuel exhausted"
  | _ + 1, st, [] => .ok st
  | n + 1, st, node :: rest =>
      match compileNode n st node with
      | .error msg => .error msg
      | .ok st1 => compileNodes n st1 rest

end

/-- `Bytecode::resolve_jumps` (src/bytecode/bytecode.rs lines 98-117); the
source `panic!`s are modelled as errors. -/
def patchJumps (instrs : List Instruction) (labels : List (String × Nat)) :
    List (Nat × String) → Except String (List Instruction)
  | [] => .ok instrs
  | (pos, label) :: rest =>
      match alGet labels label with
      | none => .error ("panic: Unresolved label " ++ label)
      | some target =>
          match instrs.get? pos with
          | some (.jump _) => patchJumps (instrs.set pos (.jump target)) labels rest
          | some (.jumpIfFalse _) => patchJumps (instrs.set pos (.jumpIfFalse target)) labels rest
          | some (.jumpIfTrue _) => patchJumps (instrs.set pos (.jumpIfTrue target)) labels rest
          | _ => .error "panic: Non jump instruction in jump points"

/-- `Bytecode::compile` (src/bytecode/bytecode.rs lines 119-136): lower every
top-level statement, append `End`, resolve the jump fixups. -/
def compile (fuel : Nat) (node : ASTNode) : Except String (List Instruction) :=
  match node with
  | .program stmts =>
      match compileNodes fuel initCompiler stmts with
      | .error msg => .error msg
      | .ok st =>
          let st1 := emit st .endProgram
          patchJumps st1.instructions st1.labels st1.jumpPoints
  | _ => .error "panic: Unexpected node type, expected program"

/-! ### Lexer (src/lexer/lexer.rs)

The scanner state (`current` buffered character + remaining iterator) is the
remaining character list whose head is `current`.  `self.input.clone().next()`
— the lookahead used by the `-` dispatch — is the second element. -/

/-- The opening-brace character (written numerically). -/
def leftBraceChar : Char := Char.ofNat 123

/-- The closing-brace character (written numerically). -/
def rightBraceChar : Char := Char.ofNat 125

/-- Numeric value of one ASCII digit. -/
def digitVal (c : Char) : Nat := c.toNat - 48

/-- Value of a digit string, most significant first. -/
def digitsToNat (ds : List Char) : Nat := ds.foldl (fun n c => n * 10 + digitVal c) 0

/-- The value `num_str.parse::<f64>()` denotes for a numeral made of an
optional sign, integer digits and fraction digits (exact in `ℚ`; f64 rounding
is outside this model). -/
def numValue (sign : Bool) (ip dp : List Char) : ℚ :=
  let mag : ℚ := (digitsToNat ip : ℚ) + mkRat (digitsToNat dp) (10 ^ dp.length)
  if sign then -mag else mag

/-- `Lexer::tokenize_number` (src/lexer/lexer.rs lines 101-132); the two
`if let` peeks of the source become `head?` tests. -/
def tokenizeNumber (l : List Char) : Except String (Token × List Char) :=
  let (sign, l1) :=
    match l with
    | '-' :: rest => (true, rest)
    | _ => (false, l)
  let intPart := l1.takeWhile Char.isDigit
  let l2 := l1.dropWhile Char.isDigit
  if sign && intPart.isEmpty then .error "Expected digits after -"
  else if l2.head? = some '.' then
    let l3 := l2.tail
    let decPart := l3.takeWhile Char.isDigit
    if decPart.isEmpty then .error "Expected digits after ."
    else .ok (.number (numValue sign intPart decPart), l3.dropWhile Char.isDigit)
  else if !sign && intPart.isEmpty then .error "Failed to parse number"
  else .ok (.number (numValue sign intPart []), l2)

/-- `Lexer::tokenize_string` (src/lexer/lexer.rs lines 134-147); the head of
the input is the opening quote.  (The `Some(c)` error arm of the source is
unreachable: the scan stops only at a quote or at the end of input.) -/
def tokenizeString : List Char → Except String (Token × List Char)
  | [] => .error "Unexpected end of input"
  | _ :: rest =>
      let content := rest.takeWhile (· ≠ '"')
      match rest.dropWhile (· ≠ '"') with
      | '"' :: rest2 => .ok (.string (String.mk content), rest2)
      | _ => .error "Unexpected end of input"

/-- `Lexer::tokenize_identifier` (src/lexer/lexer.rs lines 149-173). -/
def tokenizeIdentifier (l : List Char) : Except String (Token × List Char) :=
  let chars := l.takeWhile (fun c => c.isAlphanum || c = '_')
  let rest := l.dropWhile (fun c => c.isAlphanum || c = '_')
  let s := String.mk chars
  let token :=
    if s = "fun" then Token.keyword .kwFun
    else if s = "return" then Token.keyword .kwReturn
    else if s = "if" then Token.keyword .kwIf
    else if s = "else" then Token.keyword .kwElse
    else if s = "str" then Token.type .str
    else if s = "num" then Token.type .num
    else if s = "bool" then Token.type .bool
    else if s = "true" then Token.boolean true
    else if s = "false" then Token.boolean false
    else Token.identifier s
  .ok (token, rest)

/-- `Lexer::tokenize_operator` (src/lexer/lexer.rs lines 175-252): the source
matches on `(current, next)`, consuming `next` in the two-character arms;
rendered here as a dispatch on `current` with an inner match on the rest
(same arm-by-arm semantics, including `!` without `=` being an error). -/
def tokenizeOperator : List Char → Except String (Token × List Char)
  | [] => .error "Expected operator, found end of input"
  | c :: rest =>
      if c = '=' then
        match rest with
        | '=' :: r => .ok (.operator .equals, r)
        | _ => .ok (.operator .assignEquals, rest)
      else if c = '!' then
        match rest with
        | '=' :: r => .ok (.operator .notEquals, r)
        | _ => .error "Unexpected operator"
      else if c = '-' then
        match rest with
        | '>' :: r => .ok (.arrow, r)
        | '=' :: r => .ok (.operator .subAssign, r)
        | _ => .ok (.operator .minus, rest)
      else if c = '>' then
        match rest with
        | '=' :: r => .ok (.operator .greaterThanOrEqual, r)
        | _ => .ok (.operator .greaterThan, rest)
      else if c = '<' then
        match rest with
        | '=' :: r => .ok (.operator .lessThanOrEqual, r)
        | _ => .ok (.operator .lessThan, rest)
      else if c = '+' then
        match rest with
        | '=' :: r => .ok (.operator .addAssign, r)
        | _ => .ok (.operator .plus, rest)
      else if c = '*' then
        match rest with
        | '=' :: r => .ok (.operator .mulAssign, r)
        | '*' :: r =>
            match r with
            | '=' :: r2 => .ok (.operator .powAssign, r2)
            | _ => .ok (.operator .power, r)
        | _ => .ok (.operator .multiply, rest)
      else if c = '%' then
        match rest with
        | '=' :: r => .ok (.operator .modAssign, r)
        | _ => .ok (.operator .modulo, rest)
      else if c = '/' then .ok (.operator .divide, rest)
      else if c = '(' then .ok (.leftParen, rest)
      else if c = ')' then .ok (.rightParen, rest)
      else if c = leftBraceChar then .ok (.leftBrace, rest)
      else if c = rightBraceChar then .ok (.rightBrace, rest)
      else if c = ',' then .ok (.comma, rest)
      else .error "Unexpected operator"

/-- The dispatch loop of `Lexer::tokenize` (src/lexer/lexer.rs lines 254-316),
fuelled: every iteration consumes at least one character, so any fuel above
the input length behaves identically (`'<'` is genuinely absent from the
operator dispatch set in the source and falls to the unexpected-character
error). -/
def tokenizeAux : Nat → List Char → Except String (List Token)
  | 0, _ => .error "panic: lexer fuel exhausted"
  | _ + 1, [] => .ok []
  | n + 1, c :: rest =>
      if c.isDigit then
        match tokenizeNumber (c :: rest) with
        | .error e => .error e
        | .ok (t, l2) =>
            match tokenizeAux n l2 with
            | .error e => .error e
            | .ok ts => .ok (t :: ts)
      else if c = '"' then
        match tokenizeString (c :: rest) with
        | .error e => .error e
        | .ok (t, l2) =>
            match tokenizeAux n l2 with
            | .error e => .error e
            | .ok ts => .ok (t :: ts)
      else if c = '-' then
        -- lines 261-271: a `-` is dispatched solely on the next character
        let useNumber :=
          match rest.head? with
          | some nc => nc.isDigit
          | none => false
        if useNumber then
          match tokenizeNumber (c :: rest) with
          | .error e => .error e
          | .ok (t, l2) =>
              match tokenizeAux n l2 with
              | .error e => .error e
              | .ok ts => .ok (t :: ts)
        else
          match tokenizeOperator (c :: rest) with
          | .error e => .error e
          | .ok (t, l2) =>
              match tokenizeAux n l2 with
              | .error e => .error e
              | .ok ts => .ok (t :: ts)
      else if c.isAlpha || c = '_' then
        match tokenizeIdentifier (c :: rest) with
        | .error e => .error e
        | .ok (t, l2) =>
            match tokenizeAux n l2 with
            | .error e => .error e
            | .ok ts => .ok (t :: ts)
      else if c = '/' then
        match rest with
        | '/' :: r2 =>
            let r3 := r2.dropWhile (· ≠ '\n')
            let r4 := match r3 with
              | '\n' :: t => t
              | _ => r3
            tokenizeAux n r4
        | '=' :: r2 =>
            match tokenizeAux n r2 with
            | .error e => .error e
            | .ok ts => .ok (Token.operator .divAssign :: ts)
        | _ =>
            match tokenizeAux n rest with
            | .error e => .error e
            | .ok ts => .ok (Token.operator .divide :: ts)
      else if c ∈ ['+', '>', '=', '*', '(', ')', leftBraceChar, rightBraceChar, ',', '!', '%'] then
        match tokenizeOperator (c :: rest) with
        | .error e => .error e
        | .ok (t, l2) =>
            match tokenizeAux n l2 with
            | .error e => .error e
            | .ok ts => .ok (t :: ts)
      else if c = '.' then
        match tokenizeAux n rest with
        | .error e => .error e
        | .ok ts => .ok (Token.period :: ts)
      else if c = ';' then tokenizeAux n rest
      else if c.isWhitespace then tokenizeAux n rest
      else .error "Unexpected character"

/-- `Lexer::tokenize`. -/
def tokenize (l : List Char) : Except String (List Token) :=
  tokenizeAux (l.length + 1) l

/-! ### Type checker (src/analyzer/typechecker.rs) -/

/-- The `{:?}` rendering of `Type`. -/
def tyToString : Ty → String
  | .num => "Num"
  | .str => "Str"
  | .bool => "Bool"
  | .void => "Void"

/-- `TypeChecker::check_binary_operation` (src/analyzer/typechecker.rs lines
186-298) given the two operand types: the early left-operand check for the
logical operators (lines 202-213) followed by the result-type match (lines
215-297).  The recursive typing of the two operand nodes and the
optional-parameter guard (which do not depend on `op`) are factored out into
the `leftType` / `rightType` arguments. -/
def checkBinaryOperationTypes (leftType : Ty) (op : Operator) (rightType : Ty) :
    Except String Ty :=
  let early : Except String Unit :=
    match op with
    | .logicalAnd | .logicalOr =>
        if leftType ≠ Ty.bool then
          .error ("Type mismatch: expected Bool, found " ++ tyToString leftType)
        else .ok ()
    | _ => .ok ()
  match early with
  | .error e => .error e
  | .ok _ =>
      match op with
      | .plus | .minus | .multiply | .divide | .power | .modulo =>
          if leftType ≠ Ty.num then
            .error ("Type mismatch: expected Num, found " ++ tyToString leftType)
          else if rightType ≠ Ty.num then
            .error ("Type mismatch: expected Num, found " ++ tyToString rightType)
          else .ok Ty.num
      | .logicalAnd | .logicalOr =>
          if rightType ≠ Ty.bool then
            .error ("Type mismatch: expected Bool, found " ++ tyToString rightType)
          else .ok Ty.bool
      | .concat =>
          if leftType = Ty.void ∨ rightType = Ty.void then
            .error "Cannot concatenate void"
          else .ok Ty.str
      | .equals | .notEquals =>
          if leftType ≠ rightType then
            .error ("Type mismatch: expected " ++ tyToString leftType ++ ", found " ++
                    tyToString rightType)
          else .ok Ty.bool
      | .greaterThan | .lessThan | .greaterThanOrEqual | .lessThanOrEqual
      | .addAssign | .divAssign | .mulAssign | .subAssign | .modAssign | .powAssign =>
          if leftType ≠ Ty.num ∨ rightType ≠ Ty.num then
            .error ("Type mismatch: expected Num and Num, found " ++ tyToString leftType ++
                    " and " ++ tyToString rightType)
          else .ok Ty.bool
      | .assignEquals =>
          if leftType ≠ rightType then
            .error ("Type mismatch: expected " ++ tyToString leftType ++ ", found " ++
                    tyToString rightType)
          else .ok Ty.void
      | .unaryMinus | .logicalNot => .error "panic: not a binary operator"

/-! ### Parser (src/parser/parser.rs)

The peekable token iterator is the remaining token list.  All functions are
fuelled (the fuel only bounds recursion depth; every theorem below quantifies
over it or supplies a concrete amount).  `precedence_order` in
`parse_expression_with_precedence` has exactly the four levels of the source:
assignments (without `**=` / `%=`), comparisons, `+ -`, `* /`; `**`, `%`,
`..`, `&&`, `||` and the unary operators appear in no level. -/

/-- The `precedence_order` table (src/parser/parser.rs lines 334-356). -/
def precedenceOrder : List (List Operator) :=
  [[.assignEquals, .addAssign, .subAssign, .mulAssign, .divAssign],
   [.equals, .notEquals, .greaterThan, .lessThan, .greaterThanOrEqual, .lessThanOrEqual],
   [.plus, .minus],
   [.multiply, .divide]]

mutual

/-- `Parser::parse_primary` (src/parser/parser.rs lines 59-86). -/
def parsePrimary : Nat → List Token → Except String (ASTNode × List Token)
  | 0, _ => .error "panic: parser fuel exhausted"
  | n + 1, toks =>
      match toks with
      | .leftParen :: rest =>
          match parseExpression n rest with
          | .error e => .error e
          | .ok (e, r) =>
              match r with
              | .rightParen :: r2 => .ok (e, r2)
              | _ :: _ => .error "Expected rparen"
              | [] => .error "Unexpected end of input"
      | .identifier ident :: rest =>
          match rest with
          | .leftParen :: r2 => parseFunctionCall n ident r2
          | _ => .ok (.identifier ident, rest)
      | .number q :: rest => .ok (.numberLiteral q, rest)
      | .string s :: rest => .ok (.stringLiteral s, rest)
      | .boolean b :: rest => .ok (.booleanLiteral b, rest)
      | _ :: _ => .error "Unexpected token"
      | [] => .error "Unexpected end of input"

/-- `Parser::parse_function_call` (src/parser/parser.rs lines 218-239), called
with the name and the tokens after the consumed `(`. -/
def parseFunctionCall (n : Nat) (name : String) (toks : List Token) :
    Except String (ASTNode × List Token) :=
  match n with
  | 0 => .error "panic: parser fuel exhausted"
  | m + 1 =>
      match toks with
      | .rightParen :: r => .ok (.functionCall name [], r)
      | _ =>
          match parseExpression m toks with
          | .error e => .error e
          | .ok (arg0, r1) =>
              match parseCallArgs m [arg0] r1 with
              | .error e => .error e
              | .ok (args, r2) =>
                  match r2 with
                  | .rightParen :: r3 => .ok (.functionCall name args, r3)
                  | _ :: _ => .error "Expected rparen"
                  | [] => .error "Unexpected end of input"

/-- The `while let Some(Token::Comma)` argument loop of `parse_function_call`. -/
def parseCallArgs (n : Nat) (acc : List ASTNode) (toks : List Token) :
    Except String (List ASTNode × List Token) :=
  match n with
  | 0 => .error "panic: parser fuel exhausted"
  | m + 1 =>
      match toks with
      | .comma :: rest =>
          match parseExpression m rest with
          | .error e => .error e
          | .ok (arg, r) => parseCallArgs m (acc ++ [arg]) r
      | _ => .ok (acc, toks)

/-- `Parser::parse_expression_with_precedence` (src/parser/parser.rs lines
333-391). -/
def parseExprPrec : Nat → Nat → List Token → Except String (ASTNode × List Token)
  | 0, _, _ => .error "panic: parser fuel exhausted"
  | n + 1, prec, toks =>
      if 4 ≤ prec then parsePrimary n toks
      else
        match (if prec = 3 then parsePrimary n toks else parseExprPrec n (prec + 1) toks) with
        | .error e => .error e
        | .ok (left, r) => parseBinLoop n prec left r

/-- The `while let Some(Token::Operator(op))` loop of
`parse_expression_with_precedence`: at level 0 the right operand is parsed at
the same level (right associativity), at every other level at `prec + 1`. -/
def parseBinLoop : Nat → Nat → ASTNode → List Token → Except String (ASTNode × List Token)
  | 0, _, _, _ => .error "panic: parser fuel exhausted"
  | n + 1, prec, left, toks =>
      match toks with
      | .operator op :: rest =>
          if op ∈ precedenceOrder.getD prec [] then
            match (if prec = 0 then parseExprPrec n prec rest
                   else parseExprPrec n (prec + 1) rest) with
            | .error e => .error e
            | .ok (right, r2) => parseBinLoop n prec (.binaryOperation left op right) r2
          else .ok (left, toks)
      | _ => .ok (left, toks)

/-- `Parser::parse_expression`. -/
def parseExpression (n : Nat) (toks : List Token) : Except String (ASTNode × List Token) :=
  parseExprPrec n 0 toks

/-- `Parser::parse_parameter` (src/parser/parser.rs lines 88-109). -/
def parseParameter (toks : List Token) : Except String (Parameter × List Token) :=
  match toks with
  | .type pt :: .identifier name :: rest =>
      match rest with
      | .operator .multiply :: r2 =>
          .ok ({ name := name, paramType := pt, optional := true }, r2)
      | _ => .ok ({ name := name, paramType := pt, optional := false }, rest)
  | _ :: _ :: _ => .error "Expected type and identifier"
  | _ => .error "Unexpected end of input"

/-- The `while let Some(Token::Comma)` loop of `parse_parameter_list`. -/
def parseParamsLoop (n : Nat) (acc : List Parameter) (toks : List Token) :
    Except String (List Parameter × List Token) :=
  match n with
  | 0 => .error "panic: parser fuel exhausted"
  | m + 1 =>
      match toks with
      | .comma :: rest =>
          match parseParameter rest with
          | .error e => .error e
          | .ok (p, r) => parseParamsLoop m (acc ++ [p]) r
      | _ => .ok (acc, toks)

/-- `Parser::parse_parameter_list` (src/parser/parser.rs lines 111-132). -/
def parseParameterList (n : Nat) (toks : List Token) :
    Except String (List Parameter × List Token) :=
  match toks with
  | .rightParen :: r => .ok ([], r)
  | _ =>
      match parseParameter toks with
      | .error e => .error e
      | .ok (p0, r1) =>
          match parseParamsLoop n [p0] r1 with
          | .error e => .error e
          | .ok (ps, r2) =>
              match r2 with
              | .rightParen :: r3 => .ok (ps, r3)
              | _ :: _ => .error "Expected rparen"
              | [] => .error "Unexpected end of input"

/-- `Parser::parse_function_body` (src/parser/parser.rs lines 134-145):
statements until a `}` or the end of input; the brace is not consumed. -/
def parseFunctionBody : Nat → List Token → Except String (List ASTNode × List Token)
  | 0, _ => .error "panic: parser fuel exhausted"
  | n + 1, toks =>
      match toks with
      | [] => .ok ([], [])
      | .rightBrace :: _ => .ok ([], toks)
      | _ =>
          match parseStatement n toks with
          | .error e => .error e
          | .ok (st, r) =>
              match parseFunctionBody n r with
              | .error e => .error e
              | .ok (sts, r2) => .ok (st :: sts, r2)

/-- `Parser::parse_block` (src/parser/parser.rs lines 147-162): statements
until a `}`, which is consumed. -/
def parseBlock (n : Nat) (toks : List Token) : Except String (List ASTNode × List Token) :=
  match parseFunctionBody n toks with
  | .error e => .error e
  | .ok (sts, r) =>
      match r with
      | .rightBrace :: r2 => .ok (sts, r2)
      | _ :: _ => .error "Expected rbrace"
      | [] => .error "Unexpected end of input"

/-- `Parser::parse_function_declaration` (src/parser/parser.rs lines 164-216),
called after the `fun` keyword was consumed. -/
def parseFunctionDeclaration (n : Nat) (toks : List Token) :
    Except String (ASTNode × List Token) :=
  match toks with
  | .identifier name :: r1 =>
      match r1 with
      | .leftParen :: r2 =>
          match parseParameterList n r2 with
          | .error e => .error e
          | .ok (params, r3) =>
              let retStep : Except String (Option Ty × List Token) :=
                match r3 with
                | .arrow :: r4 =>
                    match r4 with
                    | .type t :: r5 => .ok (some t, r5)
                    | _ :: _ => .error "Expected return type"
                    | [] => .error "Unexpected end of input"
                | _ => .ok (none, r3)
              match retStep with
              | .error e => .error e
              | .ok (retTy, r6) =>
                  match r6 with
                  | .leftBrace :: r7 =>
                      match parseFunctionBody n r7 with
                      | .error e => .error e
                      | .ok (body, r8) =>
                          match r8 with
                          | .rightBrace :: r9 =>
                              .ok (.functionDeclaration name params retTy body, r9)
                          | _ :: _ => .error "Expected rbrace"
                          | [] => .error "Unexpected end of input"
                  | _ :: _ => .error "Expected lbrace"
                  | [] => .error "Unexpected end of input"
      | _ :: _ => .error "Expected lparen"
      | [] => .error "Unexpected end of input"
  | _ :: _ => .error "Expected function name"
  | [] => .error "Expected function name, found end of input"

/-- `Parser::parse_if_statement` (src/parser/parser.rs lines 241-285), called
after the `if` keyword was consumed. -/
def parseIfStatement (n : Nat) (toks : List Token) : Except String (ASTNode × List Token) :=
  match toks with
  | .leftParen :: r1 =>
      match parseExpression n r1 with
      | .error e => .error e
      | .ok (cond, r2) =>
          match r2 with
          | .rightParen :: r3 =>
              match r3 with
              | .leftBrace :: r4 =>
                  match parseBlock n r4 with
                  | .error e => .error e
                  | .ok (thenBody, r5) =>
                      match r5 with
                      | .keyword .kwElse :: r6 =>
                          match r6 with
                          | .leftBrace :: r7 =>
                              match parseBlock n r7 with
                              | .error e => .error e
                              | .ok (elseBody, r8) =>
                                  .ok (.ifStatement cond thenBody (some elseBody), r8)
                          | _ :: _ => .error "Expected lbrace"
                          | [] => .error "Unexpected end of input"
                      | _ => .ok (.ifStatement cond thenBody none, r5)
              | _ :: _ => .error "Expected lbrace"
              | [] => .error "Unexpected end of input"
          | _ :: _ => .error "Expected rparen"
          | [] => .error "Unexpected end of input"
  | _ :: _ => .error "Expected lparen after if"
  | [] => .error "Unexpected end of input"

/-- `Parser::parse_variable_declaration` (src/parser/parser.rs lines 287-304),
called with the already-consumed declared type. -/
def parseVariableDeclaration (n : Nat) (varType : Ty) (toks : List Token) :
    Except String (ASTNode × List Token) :=
  match toks with
  | .identifier name :: r1 =>
      match r1 with
      | .operator .assignEquals :: r2 =>
          match parseExpression n r2 with
          | .error e => .error e
          | .ok (value, r3) => .ok (.variableDeclaration varType name value, r3)
      | _ :: _ => .error "Expected equals"
      | [] => .error "Unexpected end of input"
  | _ :: _ => .error "Expected identifier"
  | [] => .error "Unexpected end of input"

/-- `Parser::parse_statement` (src/parser/parser.rs lines 306-331). -/
def parseStatement : Nat → List Token → Except String (ASTNode × List Token)
  | 0, _ => .error "panic: parser fuel exhausted"
  | n + 1, toks =>
      match toks with
      | .keyword .kwFun :: rest => parseFunctionDeclaration n rest
      | .keyword .kwIf :: rest => parseIfStatement n rest
      | .type t :: rest => parseVariableDeclaration n t rest
      | .keyword .kwReturn :: rest =>
          match parseExpression n rest with
          | .error e => .error e
          | .ok (e, r) => .ok (.returnStatement e, r)
      | _ =>
          match parseExpression n toks with
          | .error e => .error e
          | .ok (e, r) => .ok (.statement e, r)

end

/-- The `while self.tokens.peek().is_some()` loop of `Parser::parse_program`. -/
def parseProgramAux : Nat → List Token → Except String (List ASTNode)
  | 0, _ => .error "panic: parser fuel exhausted"
  | _ + 1, [] => .ok []
  | n + 1, toks =>
      match parseStatement n toks with
      | .error e => .error e
      | .ok (st, r) =>
          match parseProgramAux n r with
          | .error e => .error e
          | .ok sts => .ok (st :: sts)

/-- `Parser::parse_program` (src/parser/parser.rs lines 397-403). -/
def parseProgram (n : Nat) (toks : List Token) : Except String ASTNode :=
  match parseProgramAux n toks with
  | .error e => .error e
  | .ok sts => .ok (.program sts)

/-! ### Helper lemmas -/

/-- Insertion makes the key retrievable. -/
theorem alGet_alInsert_self {β : Type} (m : List (String × β)) (k : String) (v : β) :
    alGet (alInsert m k v) k = some v := by
  induction m with
  | nil => simp [alInsert, alGet]
  | cons kv rest ih =>
      obtain ⟨k0, v0⟩ := kv
      by_cases h : k0 = k
      · simp [alInsert, alGet, h]
      · simp [alInsert, alGet, h, ih]

/-- `get_variable` is the first hit of a top-to-bottom scan (the fast path on
the topmost scope is redundant). -/
theorem getVariable_eq_findSome (scopes : List Scope) (name : String) :
    getVariable scopes name = scopes.findSome? (fun sc => alGet sc name) := by
  cases scopes with
  | nil => rfl
  | cons sc rest =>
      cases h : alGet sc name with
      | none => simp [getVariable, h, List.findSome?_cons]
      | some v => simp [getVariable, h, List.findSome?_cons]

/-! ### Programs named by several claims -/

/-- `true || false` as a top-level expression statement. -/
def orProgram : ASTNode :=
  .program [.statement (.binaryOperation (.booleanLiteral true) .logicalOr (.booleanLiteral false))]

/-- The instruction vector `compile` produces for `orProgram`. -/
def orInstructions : List Instruction :=
  [.pushBoolean true, .jumpIfTrue 4, .pushBoolean false, .jump 5, .pushBoolean true,
   .pop, .endProgram]

/-- `1 / 0 == 1`: a right operand whose execution is observable (it raises
the divide-by-zero error if and only if it runs). -/
def divZeroProbe : ASTNode :=
  .binaryOperation (.binaryOperation (.numberLiteral 1) .divide (.numberLiteral 0)) .equals
    (.numberLiteral 1)

/-- `false && (1 / 0 == 1)` as a program. -/
def andFalseProgram : ASTNode :=
  .program [.statement (.binaryOperation (.booleanLiteral false) .logicalAnd divZeroProbe)]

/-- `true && (1 / 0 == 1)` as a program. -/
def andTrueProgram : ASTNode :=
  .program [.statement (.binaryOperation (.booleanLiteral true) .logicalAnd divZeroProbe)]

/-! ### Claims -/

/-- C1.  The claim says a user-function `Call(name, n)` with `p` parameters of
which `r` are non-optional is accepted iff `r ≤ n ≤ p`.  The code
(src/vm/vm.rs line 425) computes `required_args` as the number of OPTIONAL
parameters instead, contradicting the parallel check of the type checker
(src/analyzer/typechecker.rs lines 438-451), the wording of its own error
message, and the spec.  Evaluated at the failing inputs: a function `f` with
one required parameter accepts a zero-argument call (binding the parameter to
`Void`), and a function `g` with one optional parameter rejects a
zero-argument call. -/
theorem C1_requiredArgs_optionalCount_bug :
    step defaultEnv [.call "f" 0]
      { pc := 0, stack := [], scopes := [[]], callStack := [],
        functions := [("f", { parameters := [{ name := "a", paramType := .num, optional := false }], address := 5 })] } =
      .next { pc := 5, stack := [],
              scopes := [[("a", Value.void)], []],
              callStack := [{ returnAddress := 1, vars := [("a", Value.void)], scopeIndex := 1 }],
              functions := [("f", { parameters := [{ name := "a", paramType := .num, optional := false }], address := 5 })] } ∧
    step defaultEnv [.call "g" 0]
      { pc := 0, stack := [], scopes := [[]], callStack := [],
        functions := [("g", { parameters := [{ name := "a", paramType := .num, optional := true }], address := 5 })] } =
      .fail "Function g requires 1 arguments, but 0 were provided" := by
  constructor
  · rfl
  · rfl

/-- C2.  The dispatch `match` of `VM::run` has no arm for `JumpIfTrue`
(between the `JumpIfFalse` and `DeclareFunction` arms, src/vm/vm.rs lines
373-385, nothing handles it): fetching a `JumpIfTrue` leaves the interpreter
without an applicable handler, while the compiler does emit `JumpIfTrue` when
lowering `||` (src/bytecode/bytecode.rs line 333), as the compiled form of
`true || false` shows. -/
theorem C2_jumpIfTrue_unhandled :
    (∀ (env : Env) (prog : List Instruction) (s : VMState) (addr : Nat),
        prog.get? s.pc = some (.jumpIfTrue addr) →
        step env prog s = .unhandled (.jumpIfTrue addr)) ∧
    compile 9 orProgram = .ok orInstructions ∧
    orInstructions.get? 1 = some (.jumpIfTrue 4) := by
  refine ⟨?_, ?_, rfl⟩
  · intro env prog s addr h
    unfold step
    rw [h]
  · simp only [compile, compileNode, compileNodes, orProgram, emit, addJump, createLabel,
      generateLabel, initCompiler, patchJumps, alInsert, alGet, orInstructions]
    rfl

/-- C2 witness: the unhandled-instruction fact at a concrete program and
state. -/
theorem C2_jumpIfTrue_unhandled_witness :
    step defaultEnv [.jumpIfTrue 0] initState = .unhandled (.jumpIfTrue 0) :=
  C2_jumpIfTrue_unhandled.1 defaultEnv [.jumpIfTrue 0] initState 0 rfl

/-- C4.  The claim says `GreaterThan`, `LessThan`, `GreaterThanOrEqual`,
`LessThanOrEqual`, `Power` and `Modulo` raise a type-mismatch error when an
operand is not a number.  The code (src/vm/vm.rs lines 233-249 and 335-366)
uses `if let (Number, Number)` with no else branch in those six arms: the
operands are popped and execution silently continues with nothing pushed, as
the six step evaluations and the error-free full run below show. -/
theorem C4_comparison_silent_continue :
    (step defaultEnv [.greaterThan]
      { pc := 0, stack := [.boolean false, .boolean true], scopes := [[]], callStack := [], functions := [] } =
      .next { pc := 1, stack := [], scopes := [[]], callStack := [], functions := [] }) ∧
    (step defaultEnv [.lessThan]
      { pc := 0, stack := [.boolean false, .boolean true], scopes := [[]], callStack := [], functions := [] } =
      .next { pc := 1, stack := [], scopes := [[]], callStack := [], functions := [] }) ∧
    (step defaultEnv [.greaterThanOrEqual]
      { pc := 0, stack := [.boolean false, .boolean true], scopes := [[]], callStack := [], functions := [] } =
      .next { pc := 1, stack := [], scopes := [[]], callStack := [], functions := [] }) ∧
    (step defaultEnv [.lessThanOrEqual]
      { pc := 0, stack := [.boolean false, .boolean true], scopes := [[]], callStack := [], functions := [] } =
      .next { pc := 1, stack := [], scopes := [[]], callStack := [], functions := [] }) ∧
    (step defaultEnv [.power]
      { pc := 0, stack := [.string "b", .string "a"], scopes := [[]], callStack := [], functions := [] } =
      .next { pc := 1, stack := [], scopes := [[]], callStack := [], functions := [] }) ∧
    (step defaultEnv [.modulo]
      { pc := 0, stack := [.string "b", .string "a"], scopes := [[]], callStack := [], functions := [] } =
      .next { pc := 1, stack := [], scopes := [[]], callStack := [], functions := [] }) ∧
    run defaultEnv [.pushBoolean true, .pushBoolean false, .greaterThan, .endProgram] 10 initState =
      .finished none := by
  refine ⟨rfl, rfl, rfl, rfl, rfl, rfl, rfl⟩

/-- Two top-level variable declarations. -/
def twoDeclsProgram : ASTNode :=
  .program [.variableDeclaration .num "x" (.numberLiteral 1),
            .variableDeclaration .num "y" (.numberLiteral 2)]

/-- The instruction vector `compile` produces for `twoDeclsProgram`: each
declaration lowers to `DeclareVariable; value; StoreVariable`, with no `Pop`. -/
def twoDeclsInstructions : List Instruction :=
  [.declareVariable "x" .num, .pushNumber 1, .storeVariable "x",
   .declareVariable "y" .num, .pushNumber 2, .storeVariable "y", .endProgram]

/-- C3 counterexample.  The claim says the operand-stack depth when `End`
executes is 0 or 1 for every error-free execution.  The program with two
top-level variable declarations executes without error, and when `End`
(instruction index 6) is reached the operand stack holds TWO values:
`StoreVariable` pushes the stored value back (src/vm/vm.rs line 173) and the
compiler emits no `Pop` after a `VariableDeclaration`
(src/bytecode/bytecode.rs lines 491-500). -/
theorem C3_stack_depth_counterexample :
    compile 9 twoDeclsProgram = .ok twoDeclsInstructions ∧
    twoDeclsInstructions.get? 6 = some .endProgram ∧
    execN defaultEnv twoDeclsInstructions 6 initState =
      some { pc := 6, stack := [.number 2, .number 1],
             scopes := [[("x", .number 1), ("y", .number 2)]], callStack := [], functions := [] } ∧
    run defaultEnv twoDeclsInstructions 20 initState = .finished (some (.number 2)) := by
  refine ⟨?_, rfl, rfl, rfl⟩
  simp only [compile, compileNode, compileNodes, twoDeclsProgram, emit, initCompiler, patchJumps]
  rfl

/-- Three top-level variable declarations. -/
def threeDeclsProgram : ASTNode :=
  .program [.variableDeclaration .num "x" (.numberLiteral 1),
            .variableDeclaration .num "y" (.numberLiteral 2),
            .variableDeclaration .num "z" (.numberLiteral 3)]

/-- The instruction vector `compile` produces for `threeDeclsProgram`. -/
def threeDeclsInstructions : List Instruction :=
  [.declareVariable "x" .num, .pushNumber 1, .storeVariable "x",
   .declareVariable "y" .num, .pushNumber 2, .storeVariable "y",
   .declareVariable "z" .num, .pushNumber 3, .storeVariable "z", .endProgram]

/-- C3 amended: executing the three instructions compiled for one top-level
variable declaration (`DeclareVariable x; PushNumber q; StoreVariable x`, with
`x` not yet bound in the current scope) adds exactly one value to the operand
stack, because `StoreVariable` pushes the stored value back and no `Pop`
follows; hence the operand-stack depth at `End` equals the number of executed
top-level variable declarations and is NOT bounded by 1 (it is 3 after three
declarations, with the run still completing without error). -/
theorem C3_stack_depth_amended :
    (∀ (env : Env) (prog : List Instruction) (s : VMState) (name : String) (ty : Ty)
        (q : ℚ) (sc : Scope) (rest : List Scope),
      prog.get? s.pc = some (.declareVariable name ty) →
      prog.get? (s.pc + 1) = some (.pushNumber q) →
      prog.get? (s.pc + 2) = some (.storeVariable name) →
      s.scopes = sc :: rest →
      alGet sc name = none →
      execN env prog 3 s =
        some { s with pc := s.pc + 3, stack := .number q :: s.stack, scopes := alInsert (alInsert sc name .void) name (.number q) :: rest }) ∧
    compile 9 threeDeclsProgram = .ok threeDeclsInstructions ∧
    threeDeclsInstructions.get? 9 = some .endProgram ∧
    (execN defaultEnv threeDeclsInstructions 9 initState).map (fun s => (s.pc, s.stack.length)) =
      some (9, 3) ∧
    run defaultEnv threeDeclsInstructions 20 initState = .finished (some (.number 3)) := by
  refine ⟨?_, ?_, rfl, rfl, rfl⟩
  · intro env prog s name ty q sc rest h1 h2 h3 h4 h5
    have hc : alContains sc name = false := by simp [alContains, h5]
    have hc2 : alContains (alInsert sc name Value.void) name = true := by
      simp [alContains, alGet_alInsert_self]
    simp only [List.get?_eq_getElem?] at h1 h2 h3
    simp [execN, step, h1, h2, h3, h4, hc, hc2, updateVariable, Nat.add_assoc]
  · simp only [compile, compileNode, compileNodes, threeDeclsProgram, emit, initCompiler,
      patchJumps]
    rfl

/-- C3 amended witness: one concrete declaration triple executed from the
initial state. -/
theorem C3_stack_depth_amended_witness :
    execN defaultEnv [.declareVariable "x" .num, .pushNumber 7, .storeVariable "x"] 3 initState =
      some { pc := 3, stack := [.number 7], scopes := [[("x", .number 7)]],
             callStack := [], functions := [] } :=
  C3_stack_depth_amended.1 defaultEnv
    [.declareVariable "x" .num, .pushNumber 7, .storeVariable "x"] initState
    "x" .num 7 [] [] rfl rfl rfl rfl rfl

/-- The tokens of `a ** b ** c`. -/
def starTokens : List Token :=
  [.identifier "a", .operator .power, .identifier "b", .operator .power, .identifier "c"]

/-- C5 counterexample.  The claim says the parser parses `a ** b ** c` as
`a ** (b ** c)`.  The `precedence_order` table of
`parse_expression_with_precedence` (src/parser/parser.rs lines 334-356) has no
level for `**`: expression parsing stops after `a`, and the statement loop
then hits the dangling `**` and fails with the unexpected-token error, so the
program does not parse at all. -/
theorem C5_power_assoc_counterexample :
    parseProgram 30 starTokens = .error "Unexpected token" ∧
    parseExpression 30 starTokens =
      .ok (.identifier "a", [.operator .power, .identifier "b", .operator .power, .identifier "c"]) ∧
    parseProgram 30 starTokens ≠
      .ok (.program [.statement (.binaryOperation (.identifier "a") .power
        (.binaryOperation (.identifier "b") .power (.identifier "c")))]) := by
  have h1 : parseProgram 30 starTokens = .error "Unexpected token" := by
    simp [parseProgram, parseProgramAux, parseStatement, parseExpression, parseExprPrec,
      parseBinLoop, parsePrimary, precedenceOrder, starTokens]
  refine ⟨h1, ?_, ?_⟩
  · simp [parseExpression, parseExprPrec, parseBinLoop, parsePrimary, precedenceOrder, starTokens]
  · rw [h1]
    intro hcontra
    exact Except.noConfusion hcontra

/-- C5 amended: the assignment level (level 0: `=`, `+=`, `-=`, `*=`, `/=`) is
right-associative, so `a = b = c` parses as `a = (b = c)`; `**` (together with
`%`, `..`, `&&`, `||`, `**=`, `%=` and the unary operators) appears in no
precedence level, so `a ** b ** c` is a parse error rather than a
right-associative expression; every other level (comparisons, `+ -`, `* /`)
is left-associative. -/
theorem C5_associativity_amended :
    (∀ (x y z : String) (op : Operator),
      op ∈ [Operator.assignEquals, Operator.addAssign, Operator.subAssign,
            Operator.mulAssign, Operator.divAssign] →
      parseExpression 30 [.identifier x, .operator op, .identifier y, .operator op, .identifier z] =
        .ok (.binaryOperation (.identifier x) op
              (.binaryOperation (.identifier y) op (.identifier z)), [])) ∧
    (∀ (x y z : String),
      parseProgram 30 [.identifier x, .operator .power, .identifier y, .operator .power,
        .identifier z] = .error "Unexpected token") ∧
    (∀ (x y z : String) (op : Operator),
      op ∈ [Operator.equals, Operator.notEquals, Operator.greaterThan, Operator.lessThan,
            Operator.greaterThanOrEqual, Operator.lessThanOrEqual, Operator.plus,
            Operator.minus, Operator.multiply, Operator.divide] →
      parseExpression 30 [.identifier x, .operator op, .identifier y, .operator op, .identifier z] =
        .ok (.binaryOperation (.binaryOperation (.identifier x) op (.identifier y)) op
              (.identifier z), [])) := by
  refine ⟨?_, ?_, ?_⟩
  · intro x y z op hop
    fin_cases hop <;>
      simp [parseExpression, parseExprPrec, parseBinLoop, parsePrimary, precedenceOrder]
  · intro x y z
    simp [parseProgram, parseProgramAux, parseStatement, parseExpression, parseExprPrec,
      parseBinLoop, parsePrimary, precedenceOrder]
  · intro x y z op hop
    fin_cases hop <;>
      simp [parseExpression, parseExprPrec, parseBinLoop, parsePrimary, precedenceOrder]

/-- C5 witness: the amended associativity facts at concrete identifiers and
operators. -/
theorem C5_associativity_amended_witness :
    parseExpression 30 [.identifier "a", .operator .assignEquals, .identifier "b",
        .operator .assignEquals, .identifier "c"] =
      .ok (.binaryOperation (.identifier "a") .assignEquals
            (.binaryOperation (.identifier "b") .assignEquals (.identifier "c")), []) ∧
    parseExpression 30 [.identifier "a", .operator .plus, .identifier "b", .operator .plus,
        .identifier "c"] =
      .ok (.binaryOperation (.binaryOperation (.identifier "a") .plus (.identifier "b")) .plus
            (.identifier "c"), []) :=
  ⟨C5_associativity_amended.1 "a" "b" "c" Operator.assignEquals (by decide),
   C5_associativity_amended.2.2 "a" "b" "c" Operator.plus (by decide)⟩

/-- The instruction vector `compile` produces for `andFalseProgram`. -/
def andFalseInstructions : List Instruction :=
  [.pushBoolean false, .jumpIfFalse 8, .pushNumber 1, .pushNumber 0, .divide, .pushNumber 1,
   .equals, .jump 9, .pushBoolean false, .pop, .endProgram]

/-- The instruction vector `compile` produces for `andTrueProgram`. -/
def andTrueInstructions : List Instruction :=
  [.pushBoolean true, .jumpIfFalse 8, .pushNumber 1, .pushNumber 0, .divide, .pushNumber 1,
   .equals, .jump 9, .pushBoolean false, .pop, .endProgram]

/-- C6.  The `&&` half of the claim holds: with a false left operand the
compiled right operand (an observable divide-by-zero probe) is skipped and
`false` is pushed, and with a true left operand the probe runs (the run fails
with the divide-by-zero error).  The `||` half fails: for `true || false` the
compiler emits `JumpIfTrue`, for which the dispatch `match` of `VM::run` has
no arm, so execution can not proceed past it — neither the short-circuit push
of `true` nor the right operand happens. -/
theorem C6_short_circuit_or_stuck :
    compile 9 andFalseProgram = .ok andFalseInstructions ∧
    run defaultEnv andFalseInstructions 20 initState = .finished none ∧
    compile 9 andTrueProgram = .ok andTrueInstructions ∧
    run defaultEnv andTrueInstructions 20 initState = .failed "Cannot divide by zero" ∧
    compile 9 orProgram = .ok orInstructions ∧
    run defaultEnv orInstructions 20 initState = .stuck (.jumpIfTrue 4) := by
  refine ⟨?_, rfl, ?_, rfl, ?_, rfl⟩
  · simp only [compile, compileNode, compileNodes, andFalseProgram, divZeroProbe, emit, addJump,
      createLabel, generateLabel, initCompiler, patchJumps, alInsert, alGet]
    rfl
  · simp only [compile, compileNode, compileNodes, andTrueProgram, divZeroProbe, emit, addJump,
      createLabel, generateLabel, initCompiler, patchJumps, alInsert, alGet]
    rfl
  · simp only [compile, compileNode, compileNodes, orProgram, emit, addJump, createLabel,
      generateLabel, initCompiler, patchJumps, alInsert, alGet]
    rfl

/-- Structural decidable equality for `Except` (used to `decide` statements
about results of the embedded functions). -/
instance {ε α : Type} [DecidableEq ε] [DecidableEq α] : DecidableEq (Except ε α)
  | .ok a, .ok b =>
      if h : a = b then .isTrue (by rw [h]) else .isFalse (fun hh => h (Except.ok.inj hh))
  | .error a, .error b =>
      if h : a = b then .isTrue (by rw [h]) else .isFalse (fun hh => h (Except.error.inj hh))
  | .ok _, .error _ => .isFalse Except.noConfusion
  | .error _, .ok _ => .isFalse Except.noConfusion

/-- `true` exactly on the `Err` results of the type checker. -/
def isErrorRes : Except String Ty → Bool
  | .error _ => true
  | .ok _ => false

/-- C7.  In `check_binary_operation`, the six plain arithmetic operators type
as `Num` and the six compound-assignment operators (grouped with the
relational operators, src/analyzer/typechecker.rs lines 265-283) type as
`Bool`, in both cases exactly when both operand types are `Num`, and any
other operand types produce a type error. -/
theorem C7_arith_compound_typing :
    ∀ (lt rt : Ty) (op : Operator),
      (op ∈ [Operator.plus, Operator.minus, Operator.multiply, Operator.divide,
             Operator.power, Operator.modulo] →
        ((lt = Ty.num ∧ rt = Ty.num) → checkBinaryOperationTypes lt op rt = .ok Ty.num) ∧
        ((lt ≠ Ty.num ∨ rt ≠ Ty.num) → isErrorRes (checkBinaryOperationTypes lt op rt) = true)) ∧
      (op ∈ [Operator.addAssign, Operator.subAssign, Operator.mulAssign, Operator.divAssign,
             Operator.powAssign, Operator.modAssign] →
        ((lt = Ty.num ∧ rt = Ty.num) → checkBinaryOperationTypes lt op rt = .ok Ty.bool) ∧
        ((lt ≠ Ty.num ∨ rt ≠ Ty.num) → isErrorRes (checkBinaryOperationTypes lt op rt) = true)) := by
  intro lt rt op
  fin_cases lt <;> fin_cases rt <;> fin_cases op <;> decide

/-- C7 witness: the typing facts at concrete operand types and operators. -/
theorem C7_arith_compound_typing_witness :
    checkBinaryOperationTypes Ty.num Operator.plus Ty.num = .ok Ty.num ∧
    checkBinaryOperationTypes Ty.num Operator.addAssign Ty.num = .ok Ty.bool ∧
    isErrorRes (checkBinaryOperationTypes Ty.str Operator.plus Ty.num) = true :=
  ⟨((C7_arith_compound_typing Ty.num Ty.num Operator.plus).1 (by decide)).1 ⟨rfl, rfl⟩,
   ((C7_arith_compound_typing Ty.num Ty.num Operator.addAssign).2 (by decide)).1 ⟨rfl, rfl⟩,
   ((C7_arith_compound_typing Ty.str Ty.num Operator.plus).1 (by decide)).2 (Or.inl (by decide))⟩

/-- A signed numeral is nonpositive. -/
theorem numValue_true_nonpos (ip dp : List Char) : numValue true ip dp ≤ 0 := by
  have h2 : (0:ℚ) ≤ mkRat (digitsToNat dp) (10 ^ dp.length) := by
    rw [Rat.mkRat_eq_div]
    positivity
  have h1 : (0:ℚ) ≤ (digitsToNat ip : ℚ) := Nat.cast_nonneg _
  simp only [numValue, if_true]
  linarith

/-- C8.  The `-` arm of the tokenize loop decides purely on the character
after the `-`: a digit routes to `tokenize_number` (whose token, when the
numeral is well formed, is a number `≤ 0`; a dangling decimal point is the
only possible malformed-number error there), anything else (or the end of
input) routes to `tokenize_operator`, which yields `Minus`, `Arrow` or
`SubAssign`; in particular `a-1` lexes as `Identifier(a)` followed by
`Number(-1)` with no `Minus` token. -/
theorem C8_minus_dispatch :
    (∀ (n : Nat) (c : Char) (rest : List Char), c.isDigit = true →
      tokenizeAux (n + 1) ('-' :: c :: rest) =
        (match tokenizeNumber ('-' :: c :: rest) with
         | .error e => .error e
         | .ok (t, l2) =>
            match tokenizeAux n l2 with
            | .error e => .error e
            | .ok ts => .ok (t :: ts))) ∧
    (∀ (c : Char) (rest : List Char), c.isDigit = true →
      (∃ q l2, tokenizeNumber ('-' :: c :: rest) = .ok (.number q, l2) ∧ q ≤ 0) ∨
      tokenizeNumber ('-' :: c :: rest) = .error "Expected digits after .") ∧
    (∀ (n : Nat) (c : Char) (rest : List Char), c.isDigit = false →
      tokenizeAux (n + 1) ('-' :: c :: rest) =
        (match tokenizeOperator ('-' :: c :: rest) with
         | .error e => .error e
         | .ok (t, l2) =>
            match tokenizeAux n l2 with
            | .error e => .error e
            | .ok ts => .ok (t :: ts)) ∧
      (∃ t l2, tokenizeOperator ('-' :: c :: rest) = .ok (t, l2) ∧
        (t = .operator .minus ∨ t = .arrow ∨ t = .operator .subAssign))) ∧
    (∀ (n1 : Nat), tokenizeAux (n1 + 2) ['-'] = .ok [.operator .minus]) ∧
    tokenize ['a', '-', '1'] = .ok [.identifier "a", .number (-1)] := by
  refine ⟨?_, ?_, ?_, fun _ => rfl, ?_⟩
  · intro n c rest h
    simp only [tokenizeAux, List.head?_cons, h]
    simp
  · intro c rest h
    simp only [tokenizeNumber, List.takeWhile_cons, List.dropWhile_cons, h, if_true,
      List.isEmpty_cons, Bool.and_false]
    rcases hdrop : rest.dropWhile Char.isDigit with _ | ⟨d, l3⟩
    · exact Or.inl ⟨_, _, rfl, numValue_true_nonpos _ _⟩
    · by_cases hd : d = '.'
      · subst hd
        by_cases hdec : (l3.takeWhile Char.isDigit).isEmpty = true
        · simp only [List.head?_cons, List.tail_cons, hdec, if_true]
          simp
        · refine Or.inl ⟨numValue true (c :: rest.takeWhile Char.isDigit)
            (l3.takeWhile Char.isDigit), l3.dropWhile Char.isDigit, ?_,
            numValue_true_nonpos _ _⟩
          simp [hdec]
      · have hne : (some d = some '.') = False := by simp [hd]
        refine Or.inl ⟨numValue true (c :: rest.takeWhile Char.isDigit) [], d :: l3, ?_,
          numValue_true_nonpos _ _⟩
        simp [hne]
  · intro n c rest h
    constructor
    · simp only [tokenizeAux, List.head?_cons, h]
      simp
    · by_cases h1 : c = '>'
      · subst h1
        exact ⟨.arrow, rest, rfl, Or.inr (Or.inl rfl)⟩
      · by_cases h2 : c = '='
        · subst h2
          exact ⟨.operator .subAssign, rest, rfl, Or.inr (Or.inr rfl)⟩
        · refine ⟨.operator .minus, c :: rest, ?_, Or.inl rfl⟩
          simp only [tokenizeOperator]
          simp only [show ¬(('-':Char) = '=') from by decide,
            show ¬(('-':Char) = '!') from by decide, show (('-':Char) = '-') from by decide,
            if_false, if_true, reduceIte]
          split
          · rename_i heq
            exact absurd (List.cons.inj heq).1 h1
          · rename_i heq
            exact absurd (List.cons.inj heq).1 h2
          · rfl
  · simp [tokenize, tokenizeAux, tokenizeIdentifier, tokenizeNumber, numValue, digitsToNat,
      digitVal]

/-- C8 witness: the dispatch facts at the input `-1`. -/
theorem C8_minus_dispatch_witness :
    tokenizeAux 4 ('-' :: '1' :: []) =
      (match tokenizeNumber ('-' :: '1' :: []) with
       | .error e => .error e
       | .ok (t, l2) =>
          match tokenizeAux 3 l2 with
          | .error e => .error e
          | .ok ts => .ok (t :: ts)) ∧
    ((∃ q l2, tokenizeNumber ('-' :: '1' :: []) = .ok (.number q, l2) ∧ q ≤ 0) ∨
      tokenizeNumber ('-' :: '1' :: []) = .error "Expected digits after .") :=
  ⟨C8_minus_dispatch.1 3 '1' [] (by decide), C8_minus_dispatch.2.1 '1' [] (by decide)⟩

/-- Scanning an unbound prefix of the scope stack falls through to the rest. -/
theorem getVariable_append_of_unbound :
    ∀ (callee caller : List Scope) (name : String),
      (∀ sc ∈ callee, alGet sc name = none) →
      getVariable (callee ++ caller) name = getVariable caller name := by
  intro callee caller name h
  rw [getVariable_eq_findSome, getVariable_eq_findSome, List.findSome?_append,
    List.findSome?_eq_none_iff.mpr h]
  cases caller.findSome? (fun sc => alGet sc name) <;> rfl

/-- Updating through an unbound prefix of the scope stack rewrites the rest. -/
theorem updateVariable_append_of_unbound :
    ∀ (callee caller : List Scope) (name : String) (v : Value),
      (∀ sc ∈ callee, alGet sc name = none) →
      updateVariable (callee ++ caller) name v =
        (updateVariable caller name v).map (callee ++ ·)
  | [], caller, name, v, _ => by
      cases h : updateVariable caller name v <;> simp [h]
  | sc :: rest, caller, name, v, h => by
      have h0 : alContains sc name = false := by
        simp [alContains, h sc (List.mem_cons_self _ _)]
      have ih := updateVariable_append_of_unbound rest caller name v
        (fun sc2 hsc2 => h sc2 (List.mem_cons_of_mem _ hsc2))
      simp only [List.cons_append, updateVariable, h0, Bool.false_eq_true, if_false, ih]
      cases hcase : updateVariable caller name v <;> simp [ih, hcase]

/-- `fun f() { x = 5 }  num x = 1  f()  return x` — the function body assigns
to the caller-scope variable `x`. -/
def crossWriteProgram : ASTNode :=
  .program [
    .functionDeclaration "f" [] none
      [.statement (.binaryOperation (.identifier "x") .assignEquals (.numberLiteral 5))],
    .variableDeclaration .num "x" (.numberLiteral 1),
    .statement (.functionCall "f" []),
    .returnStatement (.identifier "x")]

/-- The instruction vector `compile` produces for `crossWriteProgram`. -/
def crossWriteInstructions : List Instruction :=
  [.declareFunction "f" [] none, .jump 10, .enterScope, .pushNumber 5, .storeVariable "x",
   .loadVariable "x", .pop, .pushVoid, .ret, .exitScope, .declareVariable "x" .num,
   .pushNumber 1, .storeVariable "x", .call "f" 0, .pop, .loadVariable "x", .ret, .endProgram]

/-- C9.  `get_variable` and the `StoreVariable` scan walk the WHOLE scope
stack from the top, never consulting the call stack: when a name is unbound
in every scope pushed for the current call, the lookup resolves — and the
store overwrites — the innermost caller/global binding (dynamic scoping).
End to end: a parameterless function whose body assigns `x = 5` overwrites
the caller's `num x = 1`, and the program returns `5`. -/
theorem C9_dynamic_scoping :
    (∀ (callee caller : List Scope) (name : String) (v : Value),
      (∀ sc ∈ callee, alGet sc name = none) →
      getVariable (callee ++ caller) name = getVariable caller name ∧
      updateVariable (callee ++ caller) name v =
        (updateVariable caller name v).map (callee ++ ·)) ∧
    compile 9 crossWriteProgram = .ok crossWriteInstructions ∧
    run defaultEnv crossWriteInstructions 40 initState = .finished (some (.number 5)) := by
  refine ⟨?_, ?_, rfl⟩
  · intro callee caller name v h
    exact ⟨getVariable_append_of_unbound callee caller name h,
           updateVariable_append_of_unbound callee caller name v h⟩
  · simp only [compile, compileNode, compileNodes, crossWriteProgram, emit, addJump,
      createLabel, generateLabel, initCompiler, patchJumps, lastReturns, isReturnStatement]
    rfl

/-- C9 witness: a callee scope that does not bind `x` resolves and updates
`x` in the caller scope. -/
theorem C9_dynamic_scoping_witness :
    getVariable ([[("y", Value.number 2)]] ++ [[("x", Value.number 1)]]) "x" =
      getVariable [[("x", Value.number 1)]] "x" ∧
    updateVariable ([[("y", Value.number 2)]] ++ [[("x", Value.number 1)]]) "x"
        (Value.number 5) =
      (updateVariable [[("x", Value.number 1)]] "x" (Value.number 5)).map
        ([[("y", Value.number 2)]] ++ ·) :=
  C9_dynamic_scoping.1 [[("y", .number 2)]] [[("x", .number 1)]] "x" (.number 5) (by decide)

/-- C10.  Executing `Equals` or `NotEquals` with a `Void` operand (either
side, both included) always falls into the catch-all arm and fails with the
type-mismatch error, while `check_binary_operation` accepts `==` / `!=`
whenever the operand types are equal — `Void` included — with result `Bool`:
the equality passes type checking yet always fails at runtime. -/
theorem C10_void_equality_runtime_error :
    (∀ (env : Env) (prog : List Instruction) (s : VMState) (right left : Value)
        (rest : List Value),
      prog.get? s.pc = some .equals → s.stack = right :: left :: rest →
      left = .void ∨ right = .void →
      step env prog s = .fail "Type mismatch in equality comparison") ∧
    (∀ (env : Env) (prog : List Instruction) (s : VMState) (right left : Value)
        (rest : List Value),
      prog.get? s.pc = some .notEquals → s.stack = right :: left :: rest →
      left = .void ∨ right = .void →
      step env prog s = .fail "Type mismatch in equality comparison") ∧
    (∀ t : Ty, checkBinaryOperationTypes t .equals t = .ok .bool ∧
      checkBinaryOperationTypes t .notEquals t = .ok .bool) := by
  refine ⟨?_, ?_, ?_⟩
  · intro env prog s right left rest h1 h2 h3
    simp only [List.get?_eq_getElem?] at h1
    rcases h3 with h | h
    · subst h
      cases right <;> simp [step, h1, h2]
    · subst h
      cases left <;> simp [step, h1, h2]
  · intro env prog s right left rest h1 h2 h3
    simp only [List.get?_eq_getElem?] at h1
    rcases h3 with h | h
    · subst h
      cases right <;> simp [step, h1, h2]
    · subst h
      cases left <;> simp [step, h1, h2]
  · intro t
    fin_cases t <;> exact ⟨rfl, rfl⟩

/-- C10 witness: `Void == Void` fails at runtime though it type checks. -/
theorem C10_void_equality_runtime_error_witness :
    step defaultEnv [.equals]
      { pc := 0, stack := [.void, .void], scopes := [[]], callStack := [], functions := [] } =
      .fail "Type mismatch in equality comparison" ∧
    checkBinaryOperationTypes .void .equals .void = .ok .bool :=
  ⟨C10_void_equality_runtime_error.1 defaultEnv [.equals]
      { pc := 0, stack := [.void, .void], scopes := [[]], callStack := [], functions := [] }
      .void .void [] rfl rfl (Or.inl rfl),
   (C10_void_equality_runtime_error.2.2 .void).1⟩

end Boo
